import Mathlib

/-!
Verification of the payment-submission pipeline of the bridge server,
embedded from `src/github.com/stellar/gateway/bridge/handlers/request_handler_payment.go`
(the `RequestHandler.Payment` method).

External collaborators (keypair parsing, federation resolution, Horizon
account loading and submission, the compliance HTTP call, the low-level
transaction builder and XDR encoding) live outside the repository snapshot;
they are modelled as oracle functions bundled in `Env`.  Everything the
handler itself decides — branch order, which error constant is written on
which failure, memo dispatch, hex decoding of hash memos, uint64 parsing of
id memos and sequence numbers, the mutator list of the built transaction —
is translated directly from the Go source.
-/

namespace Bridge

/-- Decimal digit value of a character, `none` for a non-digit.
Mirrors the per-character check of Go `strconv.ParseUint(s, 10, 64)`. -/
def digitVal (c : Char) : Option Nat :=
  if '0' ≤ c ∧ c ≤ '9' then some (c.toNat - '0'.toNat) else none

/-- Accumulate decimal digits (most significant first); `none` on a non-digit. -/
def decDigitsVal : List Char → Nat → Option Nat
  | [], acc => some acc
  | c :: rest, acc =>
    match digitVal c with
    | none => none
    | some d => decDigitsVal rest (acc * 10 + d)

/-- Go `strconv.ParseUint(s, 10, 64)`: fails on the empty string, on any
non-digit character, and on values that do not fit in 64 bits. -/
def parseUint64 (s : String) : Option Nat :=
  if s.data.isEmpty then none
  else
    match decDigitsVal s.data 0 with
    | none => none
    | some v => if v < 2 ^ 64 then some v else none

/-- Value of a hexadecimal digit, `none` for a non-hex character.
Go `encoding/hex` accepts `0-9`, `a-f` and `A-F`. -/
def hexDigitVal (c : Char) : Option Nat :=
  if '0' ≤ c ∧ c ≤ '9' then some (c.toNat - '0'.toNat)
  else if 'a' ≤ c ∧ c ≤ 'f' then some (c.toNat - 'a'.toNat + 10)
  else if 'A' ≤ c ∧ c ≤ 'F' then some (c.toNat - 'A'.toNat + 10)
  else none

/-- Go `hex.DecodeString` on a character list: consumes two hex digits per
output byte, failing on an odd-length input or any non-hex character. -/
def hexDecodeList : List Char → Option (List Nat)
  | [] => some []
  | [_] => none
  | hi :: lo :: rest =>
    match hexDigitVal hi, hexDigitVal lo, hexDecodeList rest with
    | some h, some l, some bs => some ((h * 16 + l) :: bs)
    | _, _, _ => none

/-- Go `hex.DecodeString` on a string. -/
def hexDecode (s : String) : Option (List Nat) :=
  hexDecodeList s.data

/-- Go `strings.Contains s pat`. -/
def strHasSub (s pat : String) : Bool :=
  decide (pat.data <:+: s.data)

/-- The `h.*` error constants written by this handler
(package `github.com/stellar/gateway/horizon`). -/
inductive ErrorKind where
  | PaymentInvalidSource
  | PaymentCannotResolveDestination
  | PaymentInvalidDestination
  | PaymentInvalidIssuer
  | PaymentMissingParamAsset
  | PaymentMissingParamMemo
  | PaymentCannotUseMemo
  | PaymentInvalidMemo
  | PaymentSourceNotExist
  | PaymentMalformedAssetCode
  | PaymentInvalidAmount
  | ServerError
  deriving DecidableEq, Repr

/-- What the handler writes to the HTTP response: an error response or a
submission result (submission results are abstracted as numeric ids). -/
inductive Response where
  | error (k : ErrorKind)
  | success (r : Nat)
  deriving DecidableEq, Repr

/-- Outbound collaborator calls made by the handler, in order.  The two
`Horizon.LoadAccount` call sites (destination-existence probe and
source-snapshot fetch) are distinguished. -/
inductive Event where
  | compliancePost
  | federationResolve (dest : String)
  | loadDestAccount (acc : String)
  | loadSourceAccount (acc : String)
  | submitTransaction
  | signAndSubmitRaw
  deriving DecidableEq, Repr

/-- `federation.Resolve` result: ledger account id plus the optional
memo fields mandated by the destination (Go pointer fields). -/
structure ResolvedDestination where
  accountId : String
  memoType : Option String
  memo : Option String
  deriving DecidableEq, Repr

/-- `Horizon.LoadAccount` result: only the sequence-number string is used. -/
structure AccountResponse where
  sequenceNumber : String
  deriving DecidableEq, Repr

/-- Result of the `http.PostForm` call to the compliance server:
transport error, body-read error, or a status code with a body. -/
inductive ComplianceResult where
  | transportError
  | bodyReadError
  | ok (status : Nat) (body : String)
  deriving DecidableEq, Repr

/-- Oracles for every external collaborator the handler calls.
`keypairParse` returns the keypair's address on success;
`txBuildErr` is `tx.Err` of the assembled `b.Transaction`;
`txeBase64` is the result of encoding the signed envelope. -/
structure Env where
  keypairParse : String → Option String
  federationResolve : String → Option ResolvedDestination
  loadAccount : String → Option AccountResponse
  compliancePost : ComplianceResult
  jsonUnmarshalSend : String → Option String
  xdrUnmarshalTx : String → Option Nat
  signAndSubmitRaw : Nat → Option Nat
  txBuildErr : Option String
  txeBase64 : Option String
  submitTransaction : String → Option Nat

/-- The handler's configuration: optional compliance-server URL and the
network passphrase (the issuing seed is only passed through to signing). -/
structure Config where
  compliance : Option String
  networkPassphrase : String
  issuingSeed : String

/-- The form fields read from the request. -/
structure PaymentRequest where
  source : String
  destination : String
  amount : String
  assetCode : String
  assetIssuer : String
  memoType : String
  memo : String
  extraMemo : String
  sender : String
  deriving DecidableEq, Repr

/-- Asset moved by the payment: native, or a credit asset
(`b.CreditAmount{assetCode, issuerKeypair.Address(), amount}`). -/
inductive Asset where
  | native
  | credit (code : String) (issuer : String)
  deriving DecidableEq, Repr

/-- The operation builder stored in the handler's `operationBuilder` slot. -/
inductive Operation where
  | payment (dest : String) (asset : Asset) (amount : String)
  | createAccount (dest : String) (startingBalance : String)
  deriving DecidableEq, Repr

/-- The memo mutator produced by the memo-type dispatch. -/
inductive Memo where
  | id (v : Nat)
  | text (s : String)
  | hash (bytes : List Nat)
  deriving DecidableEq, Repr

/-- The transaction assembled by `b.Transaction`: source-account mutator,
sequence mutator (uint64 arithmetic), network mutator, the single operation,
and the optional memo mutator. -/
structure Tx where
  source : String
  seq : Nat
  network : String
  operation : Operation
  memo : Option Memo
  deriving DecidableEq, Repr

/-- Everything observable about one handler run: the HTTP response, the
ordered collaborator calls, the operation builder if one was assigned, and
the transaction if `b.Transaction` was reached. -/
structure Outcome where
  response : Response
  events : List Event
  assembledOp : Option Operation
  builtTx : Option Tx
  deriving DecidableEq, Repr

/-- The memo-type dispatch (`switch` on `memoType`, lines 170-198):
`none` means the handler writes `PaymentInvalidMemo` and returns;
`some d` means it proceeds with memo directive `d`.  The `default`
case writes the same `PaymentInvalidMemo` constant. -/
def memoDispatch (memoType memo : String) : Option (Option Memo) :=
  if memoType = "" then some none
  else if memoType = "id" then
    match parseUint64 memo with
    | none => none
    | some v => some (some (.id v))
  else if memoType = "text" then some (some (.text memo))
  else if memoType = "hash" then
    match hexDecode memo with
    | none => none
    | some bytes =>
      if bytes.length = 32 then some (some (.hash bytes)) else none
  else none

/-- Lines 200-259: load the source account, parse its sequence number,
assemble `b.Transaction` with sequence `snapshot + 1` (uint64 arithmetic),
classify builder errors by their message string, encode, submit.
`memoOpt` is the memo mutator chosen by the dispatch, `op` the operation
builder, `ev` the events accumulated so far. -/
def buildAndSubmit (cfg : Config) (env : Env) (r : PaymentRequest)
    (sourceAddress : String) (ev : List Event) (op : Operation)
    (memoOpt : Option Memo) : Outcome :=
  let ev := ev ++ [.loadSourceAccount sourceAddress]
  match env.loadAccount sourceAddress with
  | none => ⟨.error .PaymentSourceNotExist, ev, some op, none⟩
  | some acct =>
    match parseUint64 acct.sequenceNumber with
    | none => ⟨.error .ServerError, ev, some op, none⟩
    | some seqNum =>
      let tx : Tx :=
        ⟨r.source, (seqNum + 1) % 2 ^ 64, cfg.networkPassphrase, op, memoOpt⟩
      match env.txBuildErr with
      | some msg =>
        if msg = "Asset code length is invalid" then
          ⟨.error .PaymentMalformedAssetCode, ev, some op, some tx⟩
        else if strHasSub msg "cannot parse amount" then
          ⟨.error .PaymentInvalidAmount, ev, some op, some tx⟩
        else ⟨.error .ServerError, ev, some op, some tx⟩
      | none =>
        match env.txeBase64 with
        | none => ⟨.error .ServerError, ev, some op, some tx⟩
        | some txeB64 =>
          let ev := ev ++ [.submitTransaction]
          match env.submitTransaction txeB64 with
          | none => ⟨.error .ServerError, ev, some op, some tx⟩
          | some resp => ⟨.success resp, ev, some op, some tx⟩

/-- Lines 169-259: run the memo-type dispatch on the final memo fields
(after any mandated override) and continue with build and submission. -/
def dispatchAndBuild (cfg : Config) (env : Env) (r : PaymentRequest)
    (sourceAddress : String) (ev : List Event) (op : Operation)
    (memoType memoVal : String) : Outcome :=
  match memoDispatch memoType memoVal with
  | none => ⟨.error .PaymentInvalidMemo, ev, some op, none⟩
  | some memoOpt => buildAndSubmit cfg env r sourceAddress ev op memoOpt

/-- Lines 152-259: memo-pair check, mandated-memo reconciliation (a
destination-mandated memo conflicts with any client `memo_type`, else
overwrites the memo fields; the Go code dereferences `*destinationObject.Memo`,
so the `none` value of `dst.memo` is outside the exercised domain and is
modelled as `""`), then dispatch, build and submit.
`op` is the operation builder assigned by the asset-selection branch. -/
def afterOp (cfg : Config) (env : Env) (r : PaymentRequest) (sourceAddress : String)
    (dst : ResolvedDestination) (ev : List Event) (op : Operation) : Outcome :=
  if ¬ ((r.memoType = "" ∧ r.memo = "") ∨ (r.memoType ≠ "" ∧ r.memo ≠ "")) then
    ⟨.error .PaymentMissingParamMemo, ev, some op, none⟩
  else
    match dst.memoType with
    | some mt =>
      if r.memoType ≠ "" then ⟨.error .PaymentCannotUseMemo, ev, some op, none⟩
      else dispatchAndBuild cfg env r sourceAddress ev op mt (dst.memo.getD "")
    | none => dispatchAndBuild cfg env r sourceAddress ev op r.memoType r.memo

/-- Lines 102-150: the direct-assembly path — federation resolution,
destination account-id validation, asset selection (credit asset /
native with existence probe / missing parameter). -/
def directPath (cfg : Config) (env : Env) (r : PaymentRequest)
    (sourceAddress : String) : Outcome :=
  let ev0 : List Event := [.federationResolve r.destination]
  match env.federationResolve r.destination with
  | none => ⟨.error .PaymentCannotResolveDestination, ev0, none, none⟩
  | some dst =>
    match env.keypairParse dst.accountId with
    | none => ⟨.error .PaymentInvalidDestination, ev0, none, none⟩
    | some _ =>
      if r.assetCode ≠ "" ∧ r.assetIssuer ≠ "" then
        match env.keypairParse r.assetIssuer with
        | none => ⟨.error .PaymentInvalidIssuer, ev0, none, none⟩
        | some issuerAddress =>
          afterOp cfg env r sourceAddress dst ev0
            (.payment dst.accountId (.credit r.assetCode issuerAddress) r.amount)
      else if r.assetCode = "" ∧ r.assetIssuer = "" then
        let ev1 := ev0 ++ [Event.loadDestAccount dst.accountId]
        match env.loadAccount dst.accountId with
        | none =>
          afterOp cfg env r sourceAddress dst ev1 (.createAccount dst.accountId r.amount)
        | some _ =>
          afterOp cfg env r sourceAddress dst ev1 (.payment dst.accountId .native r.amount)
      else ⟨.error .PaymentMissingParamAsset, ev0, none, none⟩

/-- Lines 39-101: the compliance-relay path — POST to the compliance server,
read body, require status 200, unmarshal the JSON response, unmarshal the
returned transaction XDR, sign and submit it.  Every failure writes
`ServerError`. -/
def compliancePath (cfg : Config) (env : Env) (r : PaymentRequest)
    (sourceAddress : String) : Outcome :=
  let ev : List Event := [.compliancePost]
  match env.compliancePost with
  | .transportError => ⟨.error .ServerError, ev, none, none⟩
  | .bodyReadError => ⟨.error .ServerError, ev, none, none⟩
  | .ok status body =>
    if status ≠ 200 then ⟨.error .ServerError, ev, none, none⟩
    else
      match env.jsonUnmarshalSend body with
      | none => ⟨.error .ServerError, ev, none, none⟩
      | some txXdr =>
        match env.xdrUnmarshalTx txXdr with
        | none => ⟨.error .ServerError, ev, none, none⟩
        | some rawTx =>
          match env.signAndSubmitRaw rawTx with
          | none => ⟨.error .ServerError, ev ++ [.signAndSubmitRaw], none, none⟩
          | some resp => ⟨.success resp, ev ++ [.signAndSubmitRaw], none, none⟩

/-- `RequestHandler.Payment`: parse the source keypair first, then route to
the compliance-relay path (`extra_memo` non-empty and compliance configured)
or the direct-assembly path. -/
def Payment (cfg : Config) (env : Env) (r : PaymentRequest) : Outcome :=
  match env.keypairParse r.source with
  | none => ⟨.error .PaymentInvalidSource, [], none, none⟩
  | some sourceAddress =>
    if r.extraMemo ≠ "" ∧ cfg.compliance.isSome then
      compliancePath cfg env r sourceAddress
    else
      directPath cfg env r sourceAddress

/-- Number of source-account snapshot fetches recorded in an event list. -/
def countLoadSource (l : List Event) : Nat :=
  l.countP fun e =>
    match e with
    | .loadSourceAccount _ => true
    | _ => false

/-- Whether an event list records a destination-existence probe. -/
def hasLoadDest (l : List Event) : Bool :=
  l.any fun e =>
    match e with
    | .loadDestAccount _ => true
    | _ => false

/-- The ways the compliance interaction can fail before a transaction comes
back: transport error, body-read error, non-200 status, malformed JSON body,
or a transaction field that does not decode. -/
def complianceFailed (env : Env) : Prop :=
  match env.compliancePost with
  | .transportError => True
  | .bodyReadError => True
  | .ok status body =>
    status ≠ 200 ∨ env.jsonUnmarshalSend body = none ∨
      ∃ x, env.jsonUnmarshalSend body = some x ∧ env.xdrUnmarshalTx x = none

/-- Concrete collaborator oracle for witness scenarios: seed "S" parses to
address "GS"; account id "GD" is valid; issuer "GI" parses to "GIA";
"dst" resolves with no mandated memo, "dstm" mandates an id memo "7",
"dstfrog" mandates a memo of the unsupported type "frog"; only the source
account "GS" exists, with sequence-number snapshot "41"; the transaction
builder and envelope encoding succeed and submission returns result 55. -/
def wEnv : Env where
  keypairParse := fun s =>
    if s = "S" then some "GS"
    else if s = "GD" then some "GD"
    else if s = "GI" then some "GIA"
    else none
  federationResolve := fun d =>
    if d = "dst" then some ⟨"GD", none, none⟩
    else if d = "dstm" then some ⟨"GD", some "id", some "7"⟩
    else if d = "dstfrog" then some ⟨"GD", some "frog", some "x"⟩
    else none
  loadAccount := fun a => if a = "GS" then some ⟨"41"⟩ else none
  compliancePost := .transportError
  jsonUnmarshalSend := fun _ => none
  xdrUnmarshalTx := fun _ => none
  signAndSubmitRaw := fun _ => none
  txBuildErr := none
  txeBase64 := some "b64"
  submitTransaction := fun _ => some 55

/-- Variant of `wEnv` in which every account exists on the ledger. -/
def wEnvAll : Env :=
  { wEnv with loadAccount := fun a => if a = "GS" then some ⟨"41"⟩ else some ⟨"1"⟩ }

/-- Oracle for compliance-relay scenarios: the POST returns status 200 and
the response decodes, so signing and submission happen (result 99). -/
def cEnv : Env :=
  { wEnv with
    compliancePost := .ok 200 "body"
    jsonUnmarshalSend := fun _ => some "xdr"
    xdrUnmarshalTx := fun _ => some 7
    signAndSubmitRaw := fun _ => some 99 }

/-- Variant of `cEnv` in which the compliance server answers HTTP 500. -/
def cEnv500 : Env :=
  { cEnv with compliancePost := .ok 500 "err" }

/-- Configuration with no compliance server. -/
def wCfg : Config := ⟨none, "net", "seed"⟩

/-- Configuration with a compliance server. -/
def cCfg : Config := ⟨some "http://compliance", "net", "seed"⟩

/-- Request with an unsupported memo type. -/
def rqC1 : PaymentRequest := ⟨"S", "dst", "10", "", "", "frog", "x", "", ""⟩

/-- Request with an `id` memo whose value does not parse. -/
def rqC1b : PaymentRequest := ⟨"S", "dst", "10", "", "", "id", "x", "", ""⟩

/-- Request with only `asset_code` set. -/
def rqC2 : PaymentRequest := ⟨"S", "dst", "10", "USD", "", "", "", "", ""⟩

/-- Request with only `asset_code` set and a non-empty `extra_memo`. -/
def rqC2c : PaymentRequest := ⟨"S", "dst", "10", "USD", "", "", "", "extra", "snd"⟩

/-- Plain native payment request with no memo. -/
def rqC3 : PaymentRequest := ⟨"S", "dst", "10", "", "", "", "", "", ""⟩

/-- Request with a client memo to a destination that mandates a memo. -/
def rqC4 : PaymentRequest := ⟨"S", "dstm", "10", "", "", "text", "hello", "", ""⟩

/-- Request with `memo_type` set but `memo` empty, to a destination that
mandates a memo. -/
def rqC4c : PaymentRequest := ⟨"S", "dstm", "10", "", "", "id", "", "", ""⟩

/-- Request with a 64-hex-character hash memo. -/
def rqC5 : PaymentRequest :=
  ⟨"S", "dst", "10", "", "",
    "hash", "00112233445566778899aabbccddeeff00112233445566778899aabbccddeeff", "", ""⟩

/-- Request with no client memo to a destination mandating a memo of an
unsupported type. -/
def rqC9 : PaymentRequest := ⟨"S", "dstfrog", "10", "", "", "", "", "", ""⟩

/-- Credit-asset payment request with both asset parameters set. -/
def rqC10 : PaymentRequest := ⟨"S", "dst", "10", "USD", "GI", "", "", "", ""⟩

/-- A successful hex decode consumes exactly two characters per byte. -/
theorem hexDecodeList_length : ∀ (cs : List Char) (bs : List Nat),
    hexDecodeList cs = some bs → 2 * bs.length = cs.length
  | [], bs, h => by
    simp only [hexDecodeList, Option.some.injEq] at h
    subst h; rfl
  | [_], _, h => by simp [hexDecodeList] at h
  | hi :: lo :: rest, bs, h => by
    simp only [hexDecodeList] at h
    cases h1 : hexDigitVal hi <;> rw [h1] at h
    · exact absurd h (by simp)
    cases h2 : hexDigitVal lo <;> rw [h2] at h
    · exact absurd h (by simp)
    cases h3 : hexDecodeList rest <;> rw [h3] at h
    · exact absurd h (by simp)
    · simp only [Option.some.injEq] at h
      subst h
      have ih := hexDecodeList_length rest _ h3
      simp only [List.length_cons]
      omega

/-- Hex decoding succeeds on any even-length string of hex digits. -/
theorem hexDecodeList_total : ∀ cs : List Char,
    (∀ c ∈ cs, (hexDigitVal c).isSome) → cs.length % 2 = 0 →
    ∃ bs, hexDecodeList cs = some bs
  | [], _, _ => ⟨[], rfl⟩
  | [_], _, hlen => by simp at hlen
  | hi :: lo :: rest, h, hlen => by
    obtain ⟨bs, hbs⟩ := hexDecodeList_total rest
      (fun c hc => h c (by simp [hc]))
      (by simp only [List.length_cons] at hlen ⊢; omega)
    obtain ⟨x, hx⟩ := Option.isSome_iff_exists.mp (h hi (by simp))
    obtain ⟨y, hy⟩ := Option.isSome_iff_exists.mp (h lo (by simp))
    refine ⟨(x * 16 + y) :: bs, ?_⟩
    simp [hexDecodeList, hx, hy, hbs]

/-- The operation builder recorded by the build-and-submit stage is the one
passed in. -/
theorem buildAndSubmit_assembledOp (cfg : Config) (env : Env) (r : PaymentRequest)
    (sAddr : String) (ev : List Event) (op : Operation) (m : Option Memo) :
    (buildAndSubmit cfg env r sAddr ev op m).assembledOp = some op := by
  unfold buildAndSubmit
  repeat' split
  all_goals rfl

/-- Event trace of the build-and-submit stage: the incoming events, then the
single source-snapshot fetch, then possibly the submission call. -/
theorem buildAndSubmit_events (cfg : Config) (env : Env) (r : PaymentRequest)
    (sAddr : String) (ev : List Event) (op : Operation) (m : Option Memo) :
    ∃ tail, (buildAndSubmit cfg env r sAddr ev op m).events =
        ev ++ [.loadSourceAccount sAddr] ++ tail ∧
      (tail = [] ∨ tail = [.submitTransaction]) := by
  unfold buildAndSubmit
  repeat' split
  all_goals first
    | (refine ⟨[], ?_, Or.inl rfl⟩; simp; done)
    | exact ⟨[.submitTransaction], rfl, Or.inr rfl⟩

/-- If the build-and-submit stage produced a transaction, the source snapshot
was loaded, its sequence number parsed, and the transaction carries exactly
the given source, sequence `snapshot + 1` (mod 2^64), network, operation and
memo. -/
theorem buildAndSubmit_builtTx (cfg : Config) (env : Env) (r : PaymentRequest)
    (sAddr : String) (ev : List Event) (op : Operation) (m : Option Memo)
    (tx : Tx) (h : (buildAndSubmit cfg env r sAddr ev op m).builtTx = some tx) :
    ∃ acct n, env.loadAccount sAddr = some acct ∧
      parseUint64 acct.sequenceNumber = some n ∧
      tx = ⟨r.source, (n + 1) % 2 ^ 64, cfg.networkPassphrase, op, m⟩ := by
  unfold buildAndSubmit at h
  cases hload : env.loadAccount sAddr <;> simp only [hload] at h
  case none => simp at h
  case some acct =>
  cases hseq : parseUint64 acct.sequenceNumber <;> simp only [hseq] at h
  case none => simp at h
  case some n =>
  refine ⟨acct, n, rfl, hseq, ?_⟩
  revert h
  repeat' split
  all_goals (intro h; simp only [Option.some.injEq] at h; exact h.symm)

/-- With a parsable source and either an empty `extra_memo` or no compliance
server configured, the handler takes the direct-assembly path. -/
theorem Payment_direct (cfg : Config) (env : Env) (r : PaymentRequest) (sAddr : String)
    (hsrc : env.keypairParse r.source = some sAddr)
    (hdirect : r.extraMemo = "" ∨ cfg.compliance = none) :
    Payment cfg env r = directPath cfg env r sAddr := by
  unfold Payment
  simp only [hsrc]
  have hneg : ¬ (r.extraMemo ≠ "" ∧ cfg.compliance.isSome) := by
    rcases hdirect with h | h <;> simp [h]
  rw [if_neg hneg]

/-- With a parsable source, a non-empty `extra_memo` and a configured
compliance server, the handler takes the compliance-relay path. -/
theorem Payment_compliance (cfg : Config) (env : Env) (r : PaymentRequest) (sAddr : String)
    (hsrc : env.keypairParse r.source = some sAddr)
    (he : r.extraMemo ≠ "") (hc : cfg.compliance.isSome) :
    Payment cfg env r = compliancePath cfg env r sAddr := by
  unfold Payment
  simp only [hsrc]
  rw [if_pos ⟨he, hc⟩]

/-- The compliance-relay path never assigns an operation builder and never
builds a transaction. -/
theorem compliancePath_no_assembly (cfg : Config) (env : Env) (r : PaymentRequest)
    (sAddr : String) :
    (compliancePath cfg env r sAddr).assembledOp = none ∧
    (compliancePath cfg env r sAddr).builtTx = none := by
  unfold compliancePath
  repeat' split
  all_goals exact ⟨rfl, rfl⟩

/-- Any compliance failure produces the `ServerError` response after exactly
one compliance call and nothing else. -/
theorem compliancePath_failed (cfg : Config) (env : Env) (r : PaymentRequest)
    (sAddr : String) (h : complianceFailed env) :
    compliancePath cfg env r sAddr =
      ⟨.error .ServerError, [.compliancePost], none, none⟩ := by
  unfold compliancePath
  unfold complianceFailed at h
  cases hc : env.compliancePost <;> (simp only [hc] at h ⊢; try rfl)
  case ok status body =>
    by_cases h200 : status = 200
    · rw [if_neg (by simp [h200])]
      rcases h with h | h | ⟨x, hx, hxdr⟩
      · exact absurd h200 h
      · rw [h]
      · simp only [hx, hxdr]
    · rw [if_pos h200]

/-- If the dispatch-and-build stage built a transaction, the memo dispatch
succeeded and the stage is the build-and-submit stage on the dispatched memo. -/
theorem dispatchAndBuild_builtTx_step (cfg : Config) (env : Env) (r : PaymentRequest)
    (sAddr : String) (ev : List Event) (op : Operation) (mt mv : String) (tx : Tx)
    (h : (dispatchAndBuild cfg env r sAddr ev op mt mv).builtTx = some tx) :
    ∃ m, memoDispatch mt mv = some m ∧
      dispatchAndBuild cfg env r sAddr ev op mt mv =
        buildAndSubmit cfg env r sAddr ev op m := by
  unfold dispatchAndBuild at h ⊢
  cases hd : memoDispatch mt mv <;> simp only [hd] at h ⊢
  · simp at h
  · exact ⟨_, rfl, rfl⟩

/-- If the memo-policy stage built a transaction, it reduced to the
build-and-submit stage on some dispatched memo. -/
theorem afterOp_builtTx_step (cfg : Config) (env : Env) (r : PaymentRequest)
    (sAddr : String) (dst : ResolvedDestination) (ev : List Event) (op : Operation)
    (tx : Tx) (h : (afterOp cfg env r sAddr dst ev op).builtTx = some tx) :
    ∃ m, afterOp cfg env r sAddr dst ev op = buildAndSubmit cfg env r sAddr ev op m := by
  unfold afterOp at h ⊢
  by_cases hpair : ((r.memoType = "" ∧ r.memo = "") ∨ (r.memoType ≠ "" ∧ r.memo ≠ ""))
  · rw [if_neg (not_not_intro hpair)] at h ⊢
    cases hmt : dst.memoType <;> simp only [hmt] at h ⊢
    · obtain ⟨m, _, hstep⟩ := dispatchAndBuild_builtTx_step _ _ _ _ _ _ _ _ _ h
      exact ⟨m, hstep⟩
    · by_cases hmtne : r.memoType ≠ ""
      · rw [if_pos hmtne] at h; simp at h
      · rw [if_neg hmtne] at h ⊢
        obtain ⟨m, _, hstep⟩ := dispatchAndBuild_builtTx_step _ _ _ _ _ _ _ _ _ h
        exact ⟨m, hstep⟩
  · rw [if_pos hpair] at h; simp at h

/-- If the direct-assembly path built a transaction, it reduced to the
build-and-submit stage, with only resolution and destination-probe events
before it (in particular no source-snapshot fetch). -/
theorem directPath_builtTx_step (cfg : Config) (env : Env) (r : PaymentRequest)
    (sAddr : String) (tx : Tx)
    (h : (directPath cfg env r sAddr).builtTx = some tx) :
    ∃ ev op m, directPath cfg env r sAddr = buildAndSubmit cfg env r sAddr ev op m ∧
      countLoadSource ev = 0 := by
  unfold directPath at h ⊢
  cases hres : env.federationResolve r.destination <;> simp only [hres] at h ⊢
  · simp at h
  case some dst =>
  cases hacc : env.keypairParse dst.accountId <;> simp only [hacc] at h ⊢
  · simp at h
  case some dAddr =>
  by_cases hc1 : r.assetCode ≠ "" ∧ r.assetIssuer ≠ ""
  · rw [if_pos hc1] at h ⊢
    cases hiss : env.keypairParse r.assetIssuer <;> simp only [hiss] at h ⊢
    · simp at h
    · obtain ⟨m, hstep⟩ := afterOp_builtTx_step _ _ _ _ _ _ _ _ h
      exact ⟨_, _, m, hstep, rfl⟩
  · rw [if_neg hc1] at h ⊢
    by_cases hc2 : r.assetCode = "" ∧ r.assetIssuer = ""
    · rw [if_pos hc2] at h ⊢
      cases hload : env.loadAccount dst.accountId <;> simp only [hload] at h ⊢
      · obtain ⟨m, hstep⟩ := afterOp_builtTx_step _ _ _ _ _ _ _ _ h
        exact ⟨_, _, m, hstep, rfl⟩
      · obtain ⟨m, hstep⟩ := afterOp_builtTx_step _ _ _ _ _ _ _ _ h
        exact ⟨_, _, m, hstep, rfl⟩
    · rw [if_neg hc2] at h
      simp at h

/-- The memo-policy stage keeps the operation builder it was given. -/
theorem afterOp_assembledOp (cfg : Config) (env : Env) (r : PaymentRequest)
    (sAddr : String) (dst : ResolvedDestination) (ev : List Event) (op : Operation) :
    (afterOp cfg env r sAddr dst ev op).assembledOp = some op := by
  unfold afterOp dispatchAndBuild
  repeat' split
  all_goals first
    | rfl
    | exact buildAndSubmit_assembledOp _ _ _ _ _ _ _

/-- Event trace from the memo-policy stage on: either nothing is added, or
the single source-snapshot fetch plus possibly the submission call. -/
theorem afterOp_events (cfg : Config) (env : Env) (r : PaymentRequest)
    (sAddr : String) (dst : ResolvedDestination) (ev : List Event) (op : Operation) :
    (afterOp cfg env r sAddr dst ev op).events = ev ∨
    ∃ tail, (afterOp cfg env r sAddr dst ev op).events =
        ev ++ [.loadSourceAccount sAddr] ++ tail ∧
      (tail = [] ∨ tail = [.submitTransaction]) := by
  unfold afterOp dispatchAndBuild
  repeat' split
  all_goals first
    | (left; rfl)
    | (right; exact buildAndSubmit_events _ _ _ _ _ _ _)

/-- Credit-asset selection: both asset parameters set and the issuer parses,
so the operation builder is a credit-asset Payment and no destination probe
happens. -/
theorem directPath_credit (cfg : Config) (env : Env) (r : PaymentRequest)
    (sAddr dAddr iAddr : String) (dst : ResolvedDestination)
    (hres : env.federationResolve r.destination = some dst)
    (hacc : env.keypairParse dst.accountId = some dAddr)
    (hcode : r.assetCode ≠ "") (hiss : r.assetIssuer ≠ "")
    (hip : env.keypairParse r.assetIssuer = some iAddr) :
    directPath cfg env r sAddr = afterOp cfg env r sAddr dst
      [.federationResolve r.destination]
      (.payment dst.accountId (.credit r.assetCode iAddr) r.amount) := by
  unfold directPath
  simp only [hres, hacc]
  rw [if_pos ⟨hcode, hiss⟩]
  simp only [hip]

/-- Native-asset selection against a destination whose load fails: the
operation builder is CreateAccount. -/
theorem directPath_native_create (cfg : Config) (env : Env) (r : PaymentRequest)
    (sAddr dAddr : String) (dst : ResolvedDestination)
    (hres : env.federationResolve r.destination = some dst)
    (hacc : env.keypairParse dst.accountId = some dAddr)
    (hcode : r.assetCode = "") (hiss : r.assetIssuer = "")
    (hload : env.loadAccount dst.accountId = none) :
    directPath cfg env r sAddr = afterOp cfg env r sAddr dst
      [.federationResolve r.destination, .loadDestAccount dst.accountId]
      (.createAccount dst.accountId r.amount) := by
  unfold directPath
  simp only [hres, hacc]
  rw [if_neg (by simp [hcode]), if_pos ⟨hcode, hiss⟩]
  simp only [hload]
  rfl

/-- Native-asset selection against a destination that loads: the operation
builder is a native Payment. -/
theorem directPath_native_pay (cfg : Config) (env : Env) (r : PaymentRequest)
    (sAddr dAddr : String) (dst : ResolvedDestination) (acct : AccountResponse)
    (hres : env.federationResolve r.destination = some dst)
    (hacc : env.keypairParse dst.accountId = some dAddr)
    (hcode : r.assetCode = "") (hiss : r.assetIssuer = "")
    (hload : env.loadAccount dst.accountId = some acct) :
    directPath cfg env r sAddr = afterOp cfg env r sAddr dst
      [.federationResolve r.destination, .loadDestAccount dst.accountId]
      (.payment dst.accountId .native r.amount) := by
  unfold directPath
  simp only [hres, hacc]
  rw [if_neg (by simp [hcode]), if_pos ⟨hcode, hiss⟩]
  simp only [hload]
  rfl

/-- With exactly one of the asset parameters set, asset selection fails with
`PaymentMissingParamAsset` after only the resolution step. -/
theorem directPath_missing_asset (cfg : Config) (env : Env) (r : PaymentRequest)
    (sAddr dAddr : String) (dst : ResolvedDestination)
    (hres : env.federationResolve r.destination = some dst)
    (hacc : env.keypairParse dst.accountId = some dAddr)
    (hone : (r.assetCode ≠ "" ∧ r.assetIssuer = "") ∨
            (r.assetCode = "" ∧ r.assetIssuer ≠ "")) :
    directPath cfg env r sAddr =
      ⟨.error .PaymentMissingParamAsset, [.federationResolve r.destination],
        none, none⟩ := by
  unfold directPath
  simp only [hres, hacc]
  rcases hone with ⟨hc, hi⟩ | ⟨hc, hi⟩
  · rw [if_neg (by simp [hi]), if_neg (by simp [hc])]
  · rw [if_neg (by simp [hc]), if_neg (by simp [hi])]

/-- Under any asset branch that succeeds, the direct path reduces to the
memo-policy stage on some event prefix and operation builder. -/
theorem directPath_to_afterOp (cfg : Config) (env : Env) (r : PaymentRequest)
    (sAddr dAddr : String) (dst : ResolvedDestination)
    (hres : env.federationResolve r.destination = some dst)
    (hacc : env.keypairParse dst.accountId = some dAddr)
    (hasset : (r.assetCode = "" ∧ r.assetIssuer = "") ∨
      (r.assetCode ≠ "" ∧ r.assetIssuer ≠ "" ∧
        ∃ iAddr, env.keypairParse r.assetIssuer = some iAddr)) :
    ∃ ev op, directPath cfg env r sAddr = afterOp cfg env r sAddr dst ev op := by
  rcases hasset with ⟨hc, hi⟩ | ⟨hc, hi, iAddr, hip⟩
  · cases hload : env.loadAccount dst.accountId
    · exact ⟨_, _, directPath_native_create cfg env r sAddr dAddr dst hres hacc hc hi hload⟩
    · exact ⟨_, _, directPath_native_pay cfg env r sAddr dAddr dst _ hres hacc hc hi hload⟩
  · exact ⟨_, _, directPath_credit cfg env r sAddr dAddr iAddr dst hres hacc hc hi hip⟩

/-- When the pair check passes and the destination mandates no memo, the
memo-policy stage dispatches on the client memo fields. -/
theorem afterOp_client_memo (cfg : Config) (env : Env) (r : PaymentRequest)
    (sAddr : String) (dst : ResolvedDestination) (ev : List Event) (op : Operation)
    (hnomandate : dst.memoType = none)
    (hpair : (r.memoType = "" ∧ r.memo = "") ∨ (r.memoType ≠ "" ∧ r.memo ≠ "")) :
    afterOp cfg env r sAddr dst ev op =
      dispatchAndBuild cfg env r sAddr ev op r.memoType r.memo := by
  unfold afterOp
  rw [if_neg (not_not_intro hpair)]
  simp only [hnomandate]

/-- A destination-mandated memo together with a client memo type fails with
`PaymentCannotUseMemo`. -/
theorem afterOp_conflict (cfg : Config) (env : Env) (r : PaymentRequest)
    (sAddr : String) (dst : ResolvedDestination) (ev : List Event) (op : Operation)
    (mt : String) (hmt : dst.memoType = some mt)
    (hC : r.memoType ≠ "") (hM : r.memo ≠ "") :
    afterOp cfg env r sAddr dst ev op =
      ⟨.error .PaymentCannotUseMemo, ev, some op, none⟩ := by
  unfold afterOp
  rw [if_neg (not_not_intro (Or.inr ⟨hC, hM⟩))]
  simp only [hmt]
  rw [if_pos hC]

/-- A destination-mandated memo with no client memo overwrites the memo
fields, which then go through the ordinary dispatch. -/
theorem afterOp_mandated (cfg : Config) (env : Env) (r : PaymentRequest)
    (sAddr : String) (dst : ResolvedDestination) (ev : List Event) (op : Operation)
    (mt mv : String) (hmt : dst.memoType = some mt) (hmv : dst.memo = some mv)
    (hC : r.memoType = "") (hM : r.memo = "") :
    afterOp cfg env r sAddr dst ev op =
      dispatchAndBuild cfg env r sAddr ev op mt mv := by
  unfold afterOp
  rw [if_neg (not_not_intro (Or.inl ⟨hC, hM⟩))]
  simp only [hmt, hmv]
  rw [if_neg (by simp [hC])]
  rfl

/-- A failing memo dispatch writes `PaymentInvalidMemo`. -/
theorem dispatchAndBuild_invalid (cfg : Config) (env : Env) (r : PaymentRequest)
    (sAddr : String) (ev : List Event) (op : Operation) (mt mv : String)
    (hd : memoDispatch mt mv = none) :
    dispatchAndBuild cfg env r sAddr ev op mt mv =
      ⟨.error .PaymentInvalidMemo, ev, some op, none⟩ := by
  unfold dispatchAndBuild
  rw [hd]

/-- A successful memo dispatch continues with build and submission. -/
theorem dispatchAndBuild_ok (cfg : Config) (env : Env) (r : PaymentRequest)
    (sAddr : String) (ev : List Event) (op : Operation) (mt mv : String)
    (m : Option Memo) (hd : memoDispatch mt mv = some m) :
    dispatchAndBuild cfg env r sAddr ev op mt mv =
      buildAndSubmit cfg env r sAddr ev op m := by
  unfold dispatchAndBuild
  rw [hd]

/-- A memo type other than the empty string, `id`, `text` and `hash` falls to
the `default` arm of the dispatch, which rejects it. -/
theorem memoDispatch_unsupported (mt mv : String)
    (h0 : mt ≠ "") (h1 : mt ≠ "id") (h2 : mt ≠ "text") (h3 : mt ≠ "hash") :
    memoDispatch mt mv = none := by
  unfold memoDispatch
  rw [if_neg h0, if_neg h1, if_neg h2, if_neg h3]

/-- An `id` memo whose value does not parse as a decimal uint64 is rejected. -/
theorem memoDispatch_id_invalid (mv : String) (h : parseUint64 mv = none) :
    memoDispatch "id" mv = none := by
  unfold memoDispatch
  rw [if_neg (by decide), if_pos rfl, h]

/-- A `hash` memo that decodes to exactly 32 bytes becomes a hash directive. -/
theorem memoDispatch_hash_ok (mv : String) (bs : List Nat)
    (h : hexDecode mv = some bs) (hl : bs.length = 32) :
    memoDispatch "hash" mv = some (some (.hash bs)) := by
  unfold memoDispatch
  rw [if_neg (by decide), if_neg (by decide), if_neg (by decide), if_pos rfl]
  simp only [h]
  rw [if_pos hl]

/-- A `hash` memo that fails to decode, or decodes to a byte count other
than 32, is rejected. -/
theorem memoDispatch_hash_invalid (mv : String)
    (h : hexDecode mv = none ∨ ∃ bs, hexDecode mv = some bs ∧ bs.length ≠ 32) :
    memoDispatch "hash" mv = none := by
  unfold memoDispatch
  rw [if_neg (by decide), if_neg (by decide), if_neg (by decide), if_pos rfl]
  rcases h with h | ⟨bs, hbs, hl⟩
  · simp only [h]
  · simp only [hbs]
    rw [if_neg hl]

/-- When the source snapshot loads and its sequence number parses, the built
transaction is exactly source, sequence `snapshot + 1` (mod 2^64), network,
operation and memo. -/
theorem buildAndSubmit_built (cfg : Config) (env : Env) (r : PaymentRequest)
    (sAddr : String) (ev : List Event) (op : Operation) (m : Option Memo)
    (acct : AccountResponse) (n : Nat)
    (hload : env.loadAccount sAddr = some acct)
    (hseq : parseUint64 acct.sequenceNumber = some n) :
    (buildAndSubmit cfg env r sAddr ev op m).builtTx =
      some ⟨r.source, (n + 1) % 2 ^ 64, cfg.networkPassphrase, op, m⟩ := by
  unfold buildAndSubmit
  simp only [hload, hseq]
  repeat' split
  all_goals rfl

/-- C6: for every request whose source does not parse, the pipeline fails
with `PaymentInvalidSource` and nothing else runs — no collaborator call is
made, no operation is assembled, no transaction is built — so any other
defect of the request is not reported: source parsing precedes every other
check on both paths. -/
theorem C6_invalid_source_first (cfg : Config) (env : Env) (r : PaymentRequest)
    (h : env.keypairParse r.source = none) :
    Payment cfg env r = ⟨.error .PaymentInvalidSource, [], none, none⟩ := by
  unfold Payment
  rw [h]

/-- C6 witness: a request with an unparsable source AND a missing asset
parameter reports `PaymentInvalidSource`, not `PaymentMissingParamAsset`. -/
theorem C6_invalid_source_first_witness :
    wEnv.keypairParse "bad" = none ∧
    Payment wCfg wEnv ⟨"bad", "dst", "10", "USD", "", "", "", "", ""⟩ =
      ⟨.error .PaymentInvalidSource, [], none, none⟩ :=
  ⟨rfl, C6_invalid_source_first wCfg wEnv _ rfl⟩

/-- C2 counterexample: a request with exactly one asset parameter set
(`asset_code = "USD"`, `asset_issuer = ""`) but a non-empty `extra_memo` and
a configured compliance server does not return `PaymentMissingParamAsset`,
and a network submission call is made for it. -/
theorem C2_counterexample :
    rqC2c.assetCode ≠ "" ∧ rqC2c.assetIssuer = "" ∧
    (Payment cCfg cEnv rqC2c).response ≠ .error .PaymentMissingParamAsset ∧
    (Payment cCfg cEnv rqC2c).response = .success 99 ∧
    Event.signAndSubmitRaw ∈ (Payment cCfg cEnv rqC2c).events := by
  refine ⟨by decide, rfl, by decide, rfl, by decide⟩

/-- C2 (amended): on the direct-assembly path, once the source parses and
the destination resolves to a valid account id, a request with exactly one
of `asset_code`/`asset_issuer` non-empty fails with
`PaymentMissingParamAsset` and no network submission call is made. -/
theorem C2_missing_asset_param (cfg : Config) (env : Env) (r : PaymentRequest)
    (sAddr dAddr : String) (dst : ResolvedDestination)
    (hsrc : env.keypairParse r.source = some sAddr)
    (hdirect : r.extraMemo = "" ∨ cfg.compliance = none)
    (hres : env.federationResolve r.destination = some dst)
    (hacc : env.keypairParse dst.accountId = some dAddr)
    (hone : (r.assetCode ≠ "" ∧ r.assetIssuer = "") ∨
            (r.assetCode = "" ∧ r.assetIssuer ≠ "")) :
    (Payment cfg env r).response = .error .PaymentMissingParamAsset ∧
    Event.submitTransaction ∉ (Payment cfg env r).events ∧
    Event.signAndSubmitRaw ∉ (Payment cfg env r).events := by
  rw [Payment_direct cfg env r sAddr hsrc hdirect,
    directPath_missing_asset cfg env r sAddr dAddr dst hres hacc hone]
  exact ⟨rfl, by simp, by simp⟩

/-- C2 witness: the same one-sided asset request on the direct path fails
with `PaymentMissingParamAsset` and never submits. -/
theorem C2_missing_asset_param_witness :
    rqC2.assetCode ≠ "" ∧ rqC2.assetIssuer = "" ∧
    ((Payment wCfg wEnv rqC2).response = .error .PaymentMissingParamAsset ∧
      Event.submitTransaction ∉ (Payment wCfg wEnv rqC2).events ∧
      Event.signAndSubmitRaw ∉ (Payment wCfg wEnv rqC2).events) :=
  ⟨by decide, rfl,
    C2_missing_asset_param wCfg wEnv rqC2 "GS" "GD" ⟨"GD", none, none⟩ rfl
      (Or.inl rfl) rfl rfl (Or.inl ⟨by decide, rfl⟩)⟩

/-- C3: a direct-assembly request with both asset parameters empty whose
resolved destination fails to load assembles a CreateAccount operation and
never a Payment operation. -/
theorem C3_create_account (cfg : Config) (env : Env) (r : PaymentRequest)
    (sAddr dAddr : String) (dst : ResolvedDestination)
    (hsrc : env.keypairParse r.source = some sAddr)
    (hdirect : r.extraMemo = "" ∨ cfg.compliance = none)
    (hres : env.federationResolve r.destination = some dst)
    (hacc : env.keypairParse dst.accountId = some dAddr)
    (hcode : r.assetCode = "") (hiss : r.assetIssuer = "")
    (hload : env.loadAccount dst.accountId = none) :
    (Payment cfg env r).assembledOp = some (.createAccount dst.accountId r.amount) ∧
    ∀ d asset amt, (Payment cfg env r).assembledOp ≠ some (.payment d asset amt) := by
  rw [Payment_direct cfg env r sAddr hsrc hdirect,
    directPath_native_create cfg env r sAddr dAddr dst hres hacc hcode hiss hload]
  rw [afterOp_assembledOp]
  exact ⟨rfl, by simp⟩

/-- C3 witness: a native payment to the non-existent account "GD" assembles
CreateAccount. -/
theorem C3_create_account_witness :
    wEnv.loadAccount "GD" = none ∧
    (Payment wCfg wEnv rqC3).assembledOp = some (.createAccount "GD" "10") :=
  ⟨rfl,
    (C3_create_account wCfg wEnv rqC3 "GS" "GD" ⟨"GD", none, none⟩ rfl (Or.inl rfl)
      rfl rfl rfl rfl rfl).1⟩

/-- C8: for every request taking the compliance-relay path (non-empty
`extra_memo`, compliance configured), any transport error, body-read error,
non-200 status, or malformed response body yields the `ServerError` response
after exactly one compliance call: no retry, no direct-assembly stage (no
resolution, no account load, no operation, no transaction). -/
theorem C8_compliance_failure (cfg : Config) (env : Env) (r : PaymentRequest)
    (sAddr : String)
    (hsrc : env.keypairParse r.source = some sAddr)
    (he : r.extraMemo ≠ "") (hc : cfg.compliance.isSome)
    (hfail : complianceFailed env) :
    Payment cfg env r = ⟨.error .ServerError, [.compliancePost], none, none⟩ := by
  rw [Payment_compliance cfg env r sAddr hsrc he hc,
    compliancePath_failed cfg env r sAddr hfail]

/-- C8 witness: compliance answers HTTP 500, and the outcome is
`ServerError` with the compliance call as the only event. -/
theorem C8_compliance_failure_witness :
    cEnv500.compliancePost = .ok 500 "err" ∧
    Payment cCfg cEnv500 rqC2c =
      ⟨.error .ServerError, [.compliancePost], none, none⟩ :=
  ⟨rfl,
    C8_compliance_failure cCfg cEnv500 rqC2c "GS" rfl (by decide) rfl
      (Or.inl (by decide))⟩

/-- C1 counterexample: a request reaching memo dispatch with the unsupported
memo type "frog" produces exactly the same `PaymentInvalidMemo` error as a
request with an invalid `id` memo value — the `default` arm of the dispatch
writes `h.PaymentInvalidMemo`, so the error kind is not distinct from
`InvalidMemo` and no `UnsupportedMemoType` kind exists in the handler. -/
theorem C1_counterexample :
    (Payment wCfg wEnv rqC1).response = .error .PaymentInvalidMemo ∧
    (Payment wCfg wEnv rqC1b).response = .error .PaymentInvalidMemo ∧
    (Payment wCfg wEnv rqC1).response = (Payment wCfg wEnv rqC1b).response :=
  ⟨rfl, rfl, rfl⟩

/-- C1 (amended): for every request that reaches memo dispatch with a
non-empty memo type other than `id`, `text` and `hash`, the pipeline fails
with `PaymentInvalidMemo` — the same error kind used for unparsable memo
values, there being no distinct unsupported-type kind. -/
theorem C1_unsupported_memo_type (cfg : Config) (env : Env) (r : PaymentRequest)
    (sAddr dAddr : String) (dst : ResolvedDestination)
    (hsrc : env.keypairParse r.source = some sAddr)
    (hdirect : r.extraMemo = "" ∨ cfg.compliance = none)
    (hres : env.federationResolve r.destination = some dst)
    (hacc : env.keypairParse dst.accountId = some dAddr)
    (hasset : (r.assetCode = "" ∧ r.assetIssuer = "") ∨
      (r.assetCode ≠ "" ∧ r.assetIssuer ≠ "" ∧
        ∃ iAddr, env.keypairParse r.assetIssuer = some iAddr))
    (hnomandate : dst.memoType = none)
    (hmt0 : r.memoType ≠ "") (hmt1 : r.memoType ≠ "id")
    (hmt2 : r.memoType ≠ "text") (hmt3 : r.memoType ≠ "hash")
    (hm : r.memo ≠ "") :
    (Payment cfg env r).response = .error .PaymentInvalidMemo := by
  obtain ⟨ev, op, heq⟩ := directPath_to_afterOp cfg env r sAddr dAddr dst hres hacc hasset
  rw [Payment_direct cfg env r sAddr hsrc hdirect, heq,
    afterOp_client_memo cfg env r sAddr dst ev op hnomandate (Or.inr ⟨hmt0, hm⟩),
    dispatchAndBuild_invalid cfg env r sAddr ev op _ _
      (memoDispatch_unsupported _ _ hmt0 hmt1 hmt2 hmt3)]

/-- C1 witness: memo type "frog" on the direct path fails with
`PaymentInvalidMemo`. -/
theorem C1_unsupported_memo_type_witness :
    rqC1.memoType = "frog" ∧
    (Payment wCfg wEnv rqC1).response = .error .PaymentInvalidMemo :=
  ⟨rfl,
    C1_unsupported_memo_type wCfg wEnv rqC1 "GS" "GD" ⟨"GD", none, none⟩ rfl
      (Or.inl rfl) rfl rfl (Or.inl ⟨rfl, rfl⟩) rfl (by decide) (by decide)
      (by decide) (by decide) (by decide)⟩

/-- C4 counterexample: the destination "dstm" mandates a memo and the client
supplied a non-empty `memo_type` ("id") with an empty `memo` value; the
pipeline fails with `PaymentMissingParamMemo` from the memo-pair check, not
with `PaymentCannotUseMemo`, because the pair check precedes the conflict
check. -/
theorem C4_counterexample :
    (wEnv.federationResolve rqC4c.destination).isSome ∧ rqC4c.memoType ≠ "" ∧
    (Payment wCfg wEnv rqC4c).response = .error .PaymentMissingParamMemo ∧
    (Payment wCfg wEnv rqC4c).response ≠ .error .PaymentCannotUseMemo :=
  ⟨rfl, by decide, rfl, by decide⟩

/-- C4 (amended): on the direct path, when the resolved destination mandates
a memo: a client memo with non-empty `memo_type` AND non-empty `memo` fails
with `PaymentCannotUseMemo`; with no client memo at all, the mandated memo
alone is dispatched, and when it dispatches to directive `m` and the build
is reached, `m` is exactly the memo attached to the built transaction —
mandated and client memos are never combined.  (A non-empty `memo_type` with
an empty `memo` fails earlier with `PaymentMissingParamMemo`.) -/
theorem C4_conflicting_memo (cfg : Config) (env : Env) (r : PaymentRequest)
    (sAddr dAddr : String) (dst : ResolvedDestination) (mt : String)
    (hsrc : env.keypairParse r.source = some sAddr)
    (hdirect : r.extraMemo = "" ∨ cfg.compliance = none)
    (hres : env.federationResolve r.destination = some dst)
    (hacc : env.keypairParse dst.accountId = some dAddr)
    (hasset : (r.assetCode = "" ∧ r.assetIssuer = "") ∨
      (r.assetCode ≠ "" ∧ r.assetIssuer ≠ "" ∧
        ∃ iAddr, env.keypairParse r.assetIssuer = some iAddr))
    (hmt : dst.memoType = some mt) :
    (r.memoType ≠ "" → r.memo ≠ "" →
      (Payment cfg env r).response = .error .PaymentCannotUseMemo) ∧
    (∀ mv m acct n, r.memoType = "" → r.memo = "" → dst.memo = some mv →
      memoDispatch mt mv = some m →
      env.loadAccount sAddr = some acct →
      parseUint64 acct.sequenceNumber = some n →
      ∃ op, (Payment cfg env r).builtTx =
        some ⟨r.source, (n + 1) % 2 ^ 64, cfg.networkPassphrase, op, m⟩) := by
  obtain ⟨ev, op, heq⟩ := directPath_to_afterOp cfg env r sAddr dAddr dst hres hacc hasset
  rw [Payment_direct cfg env r sAddr hsrc hdirect, heq]
  constructor
  · intro hC hM
    rw [afterOp_conflict cfg env r sAddr dst ev op mt hmt hC hM]
  · intro mv m acct n hC hM hmv hd hload hseq
    rw [afterOp_mandated cfg env r sAddr dst ev op mt mv hmt hmv hC hM,
      dispatchAndBuild_ok cfg env r sAddr ev op mt mv m hd]
    exact ⟨op, buildAndSubmit_built cfg env r sAddr ev op m acct n hload hseq⟩

/-- C4 witness: a client text memo to the memo-mandating destination "dstm"
fails with `PaymentCannotUseMemo`. -/
theorem C4_conflicting_memo_witness :
    wEnv.federationResolve "dstm" = some ⟨"GD", some "id", some "7"⟩ ∧
    (Payment wCfg wEnv rqC4).response = .error .PaymentCannotUseMemo :=
  ⟨rfl,
    (C4_conflicting_memo wCfg wEnv rqC4 "GS" "GD" ⟨"GD", some "id", some "7"⟩ "id"
      rfl (Or.inl rfl) rfl rfl (Or.inl ⟨rfl, rfl⟩) rfl).1 (by decide) (by decide)⟩

/-- C9: on the direct path with no client memo, a destination-mandated memo
is validated through the same dispatch as a client-supplied memo: whenever
the mandated type/value pair is rejected by the dispatch (unsupported type,
unparsable id value, or a hash value that does not decode to 32 bytes), the
request fails with the corresponding memo error instead of attaching the
memo unvalidated. -/
theorem C9_mandated_memo_validated (cfg : Config) (env : Env) (r : PaymentRequest)
    (sAddr dAddr : String) (dst : ResolvedDestination) (mt mv : String)
    (hsrc : env.keypairParse r.source = some sAddr)
    (hdirect : r.extraMemo = "" ∨ cfg.compliance = none)
    (hres : env.federationResolve r.destination = some dst)
    (hacc : env.keypairParse dst.accountId = some dAddr)
    (hasset : (r.assetCode = "" ∧ r.assetIssuer = "") ∨
      (r.assetCode ≠ "" ∧ r.assetIssuer ≠ "" ∧
        ∃ iAddr, env.keypairParse r.assetIssuer = some iAddr))
    (hmt : dst.memoType = some mt) (hmv : dst.memo = some mv)
    (hC : r.memoType = "") (hM : r.memo = "")
    (hdisp : memoDispatch mt mv = none) :
    (Payment cfg env r).response = .error .PaymentInvalidMemo := by
  obtain ⟨ev, op, heq⟩ := directPath_to_afterOp cfg env r sAddr dAddr dst hres hacc hasset
  rw [Payment_direct cfg env r sAddr hsrc hdirect, heq,
    afterOp_mandated cfg env r sAddr dst ev op mt mv hmt hmv hC hM,
    dispatchAndBuild_invalid cfg env r sAddr ev op mt mv hdisp]

/-- C9 witness: the destination "dstfrog" mandates a memo of unsupported
type "frog"; the request fails with `PaymentInvalidMemo`. -/
theorem C9_mandated_memo_validated_witness :
    wEnv.federationResolve "dstfrog" = some ⟨"GD", some "frog", some "x"⟩ ∧
    (Payment wCfg wEnv rqC9).response = .error .PaymentInvalidMemo :=
  ⟨rfl,
    C9_mandated_memo_validated wCfg wEnv rqC9 "GS" "GD"
      ⟨"GD", some "frog", some "x"⟩ "frog" "x" rfl (Or.inl rfl) rfl rfl
      (Or.inl ⟨rfl, rfl⟩) rfl rfl rfl rfl (by decide)⟩

/-- C10: for every direct-assembly request with both asset parameters
non-empty, the destination account's existence is never probed, and any
assembled operation is a credit-asset Payment — CreateAccount can only arise
on the native-asset path. -/
theorem C10_credit_never_probes (cfg : Config) (env : Env) (r : PaymentRequest)
    (sAddr : String)
    (hsrc : env.keypairParse r.source = some sAddr)
    (hdirect : r.extraMemo = "" ∨ cfg.compliance = none)
    (hcode : r.assetCode ≠ "") (hiss : r.assetIssuer ≠ "") :
    hasLoadDest (Payment cfg env r).events = false ∧
    ∀ op, (Payment cfg env r).assembledOp = some op →
      ∃ dst iAddr, env.federationResolve r.destination = some dst ∧
        env.keypairParse r.assetIssuer = some iAddr ∧
        op = .payment dst.accountId (.credit r.assetCode iAddr) r.amount := by
  rw [Payment_direct cfg env r sAddr hsrc hdirect]
  unfold directPath
  cases hres : env.federationResolve r.destination <;> simp only [hres]
  · exact ⟨rfl, by simp⟩
  case some dst =>
  cases hacc : env.keypairParse dst.accountId <;> simp only [hacc]
  · exact ⟨rfl, by simp⟩
  case some dAddr =>
  rw [if_pos ⟨hcode, hiss⟩]
  cases hip : env.keypairParse r.assetIssuer <;> simp only [hip]
  · exact ⟨rfl, by simp⟩
  case some iAddr =>
  constructor
  · rcases afterOp_events cfg env r sAddr dst [.federationResolve r.destination]
        (.payment dst.accountId (.credit r.assetCode iAddr) r.amount) with
      hev | ⟨tail, hev, htail⟩
    · rw [hev]; rfl
    · rw [hev]
      rcases htail with rfl | rfl <;> rfl
  · intro op hop
    rw [afterOp_assembledOp] at hop
    exact ⟨dst, iAddr, rfl, rfl, (Option.some.inj hop).symm⟩

/-- C10 witness: a credit payment "USD"/"GI" never probes the destination
and assembles a credit Payment operation. -/
theorem C10_credit_never_probes_witness :
    rqC10.assetCode ≠ "" ∧ rqC10.assetIssuer ≠ "" ∧
    hasLoadDest (Payment wCfg wEnv rqC10).events = false :=
  ⟨by decide, by decide,
    (C10_credit_never_probes wCfg wEnv rqC10 "GS" rfl (Or.inl rfl) (by decide)
      (by decide)).1⟩

/-- C5: for a request reaching memo dispatch with memo type `hash`: a memo
value of exactly 64 hexadecimal characters decodes to exactly 32 bytes, and
those bytes are attached to the built transaction unchanged; a memo value
that is not valid hex, or whose length differs from 64, fails with
`PaymentInvalidMemo`. -/
theorem C5_hash_memo_roundtrip (cfg : Config) (env : Env) (r : PaymentRequest)
    (sAddr dAddr : String) (dst : ResolvedDestination)
    (hsrc : env.keypairParse r.source = some sAddr)
    (hdirect : r.extraMemo = "" ∨ cfg.compliance = none)
    (hres : env.federationResolve r.destination = some dst)
    (hacc : env.keypairParse dst.accountId = some dAddr)
    (hasset : (r.assetCode = "" ∧ r.assetIssuer = "") ∨
      (r.assetCode ≠ "" ∧ r.assetIssuer ≠ "" ∧
        ∃ iAddr, env.keypairParse r.assetIssuer = some iAddr))
    (hnomandate : dst.memoType = none)
    (hmt : r.memoType = "hash") (hm : r.memo ≠ "") :
    ((r.memo.data.length = 64 ∧ ∀ c ∈ r.memo.data, (hexDigitVal c).isSome) →
      ∃ bs, hexDecode r.memo = some bs ∧ bs.length = 32 ∧
        ∀ acct n, env.loadAccount sAddr = some acct →
          parseUint64 acct.sequenceNumber = some n →
          ∃ op, (Payment cfg env r).builtTx =
            some ⟨r.source, (n + 1) % 2 ^ 64, cfg.networkPassphrase, op,
              some (.hash bs)⟩) ∧
    ((hexDecode r.memo = none ∨ r.memo.data.length ≠ 64) →
      (Payment cfg env r).response = .error .PaymentInvalidMemo) := by
  obtain ⟨ev, op, heq⟩ := directPath_to_afterOp cfg env r sAddr dAddr dst hres hacc hasset
  have hne : r.memoType ≠ "" := by rw [hmt]; decide
  have hpair : (r.memoType = "" ∧ r.memo = "") ∨ (r.memoType ≠ "" ∧ r.memo ≠ "") :=
    Or.inr ⟨hne, hm⟩
  constructor
  · rintro ⟨hlen, hhex⟩
    obtain ⟨bs, hbs⟩ := hexDecodeList_total r.memo.data hhex (by rw [hlen])
    have hblen : 2 * bs.length = r.memo.data.length := hexDecodeList_length _ _ hbs
    have h32 : bs.length = 32 := by omega
    refine ⟨bs, hbs, h32, ?_⟩
    intro acct n hload hseq
    refine ⟨op, ?_⟩
    rw [Payment_direct cfg env r sAddr hsrc hdirect, heq,
      afterOp_client_memo cfg env r sAddr dst ev op hnomandate hpair, hmt,
      dispatchAndBuild_ok cfg env r sAddr ev op "hash" r.memo (some (.hash bs))
        (memoDispatch_hash_ok r.memo bs hbs h32)]
    exact buildAndSubmit_built cfg env r sAddr ev op (some (.hash bs)) acct n hload hseq
  · intro hbad
    have hdisp : memoDispatch "hash" r.memo = none := by
      rcases hbad with hnone | hlen
      · exact memoDispatch_hash_invalid _ (Or.inl hnone)
      · cases hdec : hexDecode r.memo
        · exact memoDispatch_hash_invalid _ (Or.inl hdec)
        · refine memoDispatch_hash_invalid _ (Or.inr ⟨_, hdec, ?_⟩)
          have := hexDecodeList_length _ _ hdec
          omega
    rw [Payment_direct cfg env r sAddr hsrc hdirect, heq,
      afterOp_client_memo cfg env r sAddr dst ev op hnomandate hpair, hmt,
      dispatchAndBuild_invalid cfg env r sAddr ev op "hash" r.memo hdisp]

/-- C5 witness: a 64-hex-character hash memo decodes to 32 bytes that are
attached to the built transaction unchanged. -/
theorem C5_hash_memo_roundtrip_witness :
    rqC5.memo.data.length = 64 ∧
    (∃ bs, hexDecode rqC5.memo = some bs ∧ bs.length = 32 ∧
      ∀ acct n, wEnv.loadAccount "GS" = some acct →
        parseUint64 acct.sequenceNumber = some n →
        ∃ op, (Payment wCfg wEnv rqC5).builtTx =
          some ⟨rqC5.source, (n + 1) % 2 ^ 64, wCfg.networkPassphrase, op,
            some (.hash bs)⟩) :=
  ⟨by decide,
    (C5_hash_memo_roundtrip wCfg wEnv rqC5 "GS" "GD" ⟨"GD", none, none⟩ rfl
      (Or.inl rfl) rfl rfl (Or.inl ⟨rfl, rfl⟩) rfl rfl (by decide)).1
      ⟨by decide, by decide⟩⟩

/-- C7: whenever the pipeline builds a transaction, the source keypair
parsed, the source account snapshot was fetched, its sequence-number string
parsed to `n`, the built transaction's sequence number is `n + 1` (as the
Go uint64 addition computes it, hence exactly `n + 1` whenever it fits in
64 bits), and the event trace contains exactly one source-snapshot fetch —
the snapshot is taken once and never re-queried after build. -/
theorem C7_sequence_is_snapshot_plus_one (cfg : Config) (env : Env)
    (r : PaymentRequest) (tx : Tx)
    (h : (Payment cfg env r).builtTx = some tx) :
    ∃ sAddr acct n, env.keypairParse r.source = some sAddr ∧
      env.loadAccount sAddr = some acct ∧
      parseUint64 acct.sequenceNumber = some n ∧
      tx.seq = (n + 1) % 2 ^ 64 ∧
      (n + 1 < 2 ^ 64 → tx.seq = n + 1) ∧
      countLoadSource (Payment cfg env r).events = 1 := by
  cases hsrc : env.keypairParse r.source
  case none =>
    unfold Payment at h
    simp only [hsrc] at h
    simp at h
  case some sAddr =>
  by_cases hroute : r.extraMemo ≠ "" ∧ cfg.compliance.isSome
  · rw [Payment_compliance cfg env r sAddr hsrc hroute.1 hroute.2] at h
    rw [(compliancePath_no_assembly cfg env r sAddr).2] at h
    exact absurd h (by simp)
  · have hdirect : r.extraMemo = "" ∨ cfg.compliance = none := by
      rcases not_and_or.mp hroute with h1 | h2
      · exact Or.inl (not_not.mp h1)
      · right
        cases hc : cfg.compliance
        · rfl
        · rw [hc] at h2; simp at h2
    rw [Payment_direct cfg env r sAddr hsrc hdirect] at h ⊢
    obtain ⟨ev, op, m, heq, hev0⟩ := directPath_builtTx_step cfg env r sAddr tx h
    rw [heq] at h ⊢
    obtain ⟨acct, n, hload, hseq, htx⟩ :=
      buildAndSubmit_builtTx cfg env r sAddr ev op m tx h
    obtain ⟨tail, hevents, htail⟩ := buildAndSubmit_events cfg env r sAddr ev op m
    refine ⟨sAddr, acct, n, rfl, hload, hseq, by rw [htx], ?_, ?_⟩
    · intro hlt
      rw [htx]
      exact Nat.mod_eq_of_lt hlt
    · rw [hevents]
      unfold countLoadSource at hev0 ⊢
      rcases htail with rfl | rfl <;>
        simp [List.countP_append, List.countP_cons, hev0]

/-- C7 witness: a native payment to an existing destination builds a
transaction with sequence number 42 = 41 + 1 from the single snapshot
fetch. -/
theorem C7_sequence_is_snapshot_plus_one_witness :
    (Payment wCfg wEnvAll rqC3).builtTx =
      some ⟨"S", 42, "net", .payment "GD" .native "10", none⟩ ∧
    ∃ sAddr acct n, wEnvAll.keypairParse rqC3.source = some sAddr ∧
      wEnvAll.loadAccount sAddr = some acct ∧
      parseUint64 acct.sequenceNumber = some n ∧
      (⟨"S", 42, "net", .payment "GD" .native "10", none⟩ : Tx).seq =
        (n + 1) % 2 ^ 64 ∧
      (n + 1 < 2 ^ 64 →
        (⟨"S", 42, "net", .payment "GD" .native "10", none⟩ : Tx).seq = n + 1) ∧
      countLoadSource (Payment wCfg wEnvAll rqC3).events = 1 :=
  ⟨by decide,
    C7_sequence_is_snapshot_plus_one wCfg wEnvAll rqC3
      ⟨"S", 42, "net", .payment "GD" .native "10", none⟩ (by decide)⟩

end Bridge
